import Mathlib

set_option linter.unusedVariables false

namespace BotContentAssistant

/-- Message roles, from types.ts: USER (rendered as the user) and MODEL (the
assistant). -/
inductive MessageRole where
  | user
  | model
  deriving DecidableEq, Repr

/-- A chat message, from types.ts: a role plus its text. -/
structure Message where
  role : MessageRole
  text : String
  deriving DecidableEq, Repr

/-- Outcome of the underlying `ai.models.generateContent` API call awaited inside
`generateContent` (geminiService). `success t` models a response whose `.text` is
`t`; `errorWith m` models the call throwing a JavaScript `Error` whose message is
`m`; `nonError` models the call throwing a value that is not an `Error` instance. -/
inductive ApiOutcome where
  | success (text : String)
  | errorWith (message : String)
  | nonError
  deriving DecidableEq, Repr

/-- Whether the API outcome is one of the failure (thrown) cases. -/
def ApiOutcome.isFailure : ApiOutcome → Bool
  | .success _ => false
  | .errorWith _ => true
  | .nonError => true

/-- Models JavaScript `String.prototype.trim` (the code calls `prompt.trim()`):
drop leading and trailing whitespace characters. -/
def jsTrim (s : String) : String :=
  ⟨((s.data.dropWhile Char.isWhitespace).reverse.dropWhile Char.isWhitespace).reverse⟩

/-- Helper for `includesSubstr`: does `pat` occur as a contiguous run starting at
some position of the list? -/
def includesFrom (pat : List Char) : List Char → Bool
  | [] => pat.isEmpty
  | c :: rest => pat.isPrefixOf (c :: rest) || includesFrom pat rest

/-- Models JavaScript `String.prototype.includes` (the code calls
`error.message.includes(..)`): `pat` occurs as a substring of `s`. -/
def includesSubstr (s pat : String) : Bool :=
  includesFrom pat.data s.data

/-- The credential-failure text returned by `generateContent` when the message of
the thrown `Error` includes the fragment API key not valid (geminiService,
line 29). -/
def keyNotValidText : String :=
  "Error: The provided API key is not valid. Please ensure you have a valid Gemini API key set up."

/-- The fixed head of the communication-failure text (geminiService, line 31). -/
def commErrorHead : String :=
  "An error occurred while communicating with the Gemini API: "

/-- The communication-failure text returned by `generateContent` for any other
thrown `Error`: the fixed head followed by the message of the error (template
literal, line 31). -/
def commErrorText (m : String) : String :=
  commErrorHead ++ m

/-- The unknown-failure text returned by `generateContent` when the thrown value
is not an `Error` instance (geminiService, line 33). -/
def unknownErrorText : String :=
  "An unknown error occurred. Please check the console for details."

/-- `generateContent(systemInstruction, userPrompt)` from geminiService,
lines 14-35: awaits the API call and returns its `.text` on success; otherwise
catches the thrown value and returns one of three user-facing strings. Every
branch returns a string. -/
def generateContent (systemInstruction userPrompt : String) (o : ApiOutcome) : String :=
  match o with
  | .success t => t
  | .errorWith m =>
      if includesSubstr m "API key not valid" then keyNotValidText
      else commErrorText m
  | .nonError => unknownErrorText

/-- The promise outcome `handleSendMessage` awaits. `resolved t` models the
promise fulfilling with the string `t`; `rejectedError m` models it rejecting
with an `Error` whose message is `m`; `rejectedOther` models it rejecting with a
value that is not an `Error`. -/
inductive CallResult where
  | resolved (text : String)
  | rejectedError (message : String)
  | rejectedOther
  deriving DecidableEq, Repr

/-- Since every branch of `generateContent` returns (its try/catch swallows every
thrown value), the promise it produces always resolves; this is the call result
`handleSendMessage` actually awaits for a given API outcome. -/
def callGenerate (systemInstruction userPrompt : String) (o : ApiOutcome) : CallResult :=
  CallResult.resolved (generateContent systemInstruction userPrompt o)

/-- The state hooks of the App component (part_001, lines 198-201):
`systemInstruction`, `messages`, `isLoading` (the busy flag) and `error` (the
banner text, where `none` means the banner is hidden). -/
structure AppState where
  systemInstruction : String
  messages : List Message
  isLoading : Bool
  error : Option String
  deriving DecidableEq, Repr

/-- The synchronous half of `handleSendMessage` before the await (lines 206-209):
append the user message, set the busy flag, clear the error banner. -/
def dispatch (s : AppState) (prompt : String) : AppState :=
  { s with
    messages := s.messages ++ [⟨MessageRole.user, prompt⟩],
    isLoading := true,
    error := none }

/-- The assistant message appended when the awaited call settles: the response
text on resolution (line 213), or the apology text the catch branch builds from
the rejection (lines 216-218). -/
def settledMessage : CallResult → Message
  | .resolved t => ⟨MessageRole.model, t⟩
  | .rejectedError m => ⟨MessageRole.model, "Sorry, something went wrong: " ++ m⟩
  | .rejectedOther =>
      ⟨MessageRole.model, "Sorry, something went wrong: An unexpected error occurred."⟩

/-- The error banner after the call settles: unchanged on resolution, set by the
catch branch on rejection (lines 216-217). -/
def settledError (r : CallResult) (e : Option String) : Option String :=
  match r with
  | .resolved _ => e
  | .rejectedError m => some m
  | .rejectedOther => some "An unexpected error occurred."

/-- The continuation of `handleSendMessage` after the await settles
(lines 211-222): the try branch appends the model message; the catch branch sets
the banner and appends the apology message; the finally branch clears the busy
flag in all cases. The functional updater `setMessages(prev => ...)` appends to
the messages list as it stands at settle time, which may differ from the list at
dispatch time. -/
def settle (s : AppState) (r : CallResult) : AppState :=
  { s with
    messages := s.messages ++ [settledMessage r],
    error := settledError r s.error,
    isLoading := false }

/-- `handleSendMessage` (part_001, lines 203-223) run to completion with no other
event interleaved: a no-op when the prompt is empty or the busy flag is set
(line 204); otherwise dispatch, await `generateContent` (which always resolves),
and settle. -/
def handleSendMessage (s : AppState) (prompt : String) (o : ApiOutcome) : AppState :=
  if prompt == "" || s.isLoading then s
  else settle (dispatch s prompt) (callGenerate s.systemInstruction prompt o)

/-- `PromptForm.handleSubmit` (lines 126-132) composed with `onSendMessage`:
forwards the trimmed prompt to `handleSendMessage` only when the trimmed text is
non-empty and the busy flag is clear. -/
def handleSubmit (s : AppState) (prompt : String) (o : ApiOutcome) : AppState :=
  if jsTrim prompt != "" && !s.isLoading then handleSendMessage s (jsTrim prompt) o
  else s

/-- `handleSaveSettings` (lines 225-228): replace the system instruction and
clear the chat history; the busy flag and the error banner are not touched. -/
def handleSaveSettings (s : AppState) (newInstruction : String) : AppState :=
  { s with systemInstruction := newInstruction, messages := [] }

/-- The initial system instruction (part_001, line 196). -/
def INITIAL_SYSTEM_PROMPT : String :=
  "You are a helpful and witty Telegram bot assistant. Your responses should be concise, engaging, and suitable for a chat application."

/-- The state of the App component right after mount (lines 198-201). -/
def initialAppState : AppState :=
  { systemInstruction := INITIAL_SYSTEM_PROMPT,
    messages := [],
    isLoading := false,
    error := none }

/-- A reachable state with the busy flag set: a call for the prompt Hello has
been dispatched and has not settled yet. -/
def busyExampleState : AppState :=
  { systemInstruction := INITIAL_SYSTEM_PROMPT,
    messages := [⟨MessageRole.user, "Hello"⟩],
    isLoading := true,
    error := none }

/-- A pending state used to examine a persona save fired while a generation call
is outstanding. -/
def pendingExampleState : AppState :=
  { systemInstruction := INITIAL_SYSTEM_PROMPT,
    messages := [⟨MessageRole.user, "Hello"⟩],
    isLoading := true,
    error := none }

/-- Core lemma shared by several claims: a non-blank submission with the busy
flag clear appends the user message and the generated assistant message, clears
the busy flag, and leaves the error banner cleared. -/
theorem handleSubmit_run (s : AppState) (p : String) (o : ApiOutcome)
    (hp : jsTrim p ≠ "") (hb : s.isLoading = false) :
    (handleSubmit s p o).messages
      = s.messages ++ [⟨MessageRole.user, jsTrim p⟩,
          ⟨MessageRole.model, generateContent s.systemInstruction (jsTrim p) o⟩] ∧
    (handleSubmit s p o).isLoading = false ∧
    (handleSubmit s p o).error = none ∧
    (handleSubmit s p o).systemInstruction = s.systemInstruction := by
  simp [handleSubmit, handleSendMessage, hp, hb, dispatch, settle, callGenerate,
    settledMessage, settledError]

/-- Claim C1: submitting a string that is empty or whitespace-only after trimming
is a no-op: the state is unchanged, so no message is appended to the conversation
and the busy flag is never set; the inner guard of `handleSendMessage` likewise
rejects the trimmed (empty) prompt. -/
theorem spec_blank (s : AppState) (p : String) (o : ApiOutcome)
    (hblank : jsTrim p = "") :
    handleSubmit s p o = s ∧ handleSendMessage s (jsTrim p) o = s := by
  constructor
  · simp [handleSubmit, hblank]
  · simp [handleSendMessage, hblank]

/-- Claim C1 witness: submitting three spaces on the initial state leaves the
state unchanged. -/
theorem spec_blank_witness :
    handleSubmit initialAppState "   " (ApiOutcome.success "Hi") = initialAppState ∧
    handleSendMessage initialAppState (jsTrim "   ") (ApiOutcome.success "Hi") = initialAppState :=
  spec_blank initialAppState "   " (ApiOutcome.success "Hi") (by decide)

/-- Claim C2: while the busy flag is set, a submission attempt is a no-op at both
guards — the state is unchanged and no client call is dispatched — so at most one
generation call is in flight at any time. -/
theorem spec_busy (s : AppState) (p : String) (o : ApiOutcome)
    (hbusy : s.isLoading = true) :
    handleSubmit s p o = s ∧ handleSendMessage s p o = s := by
  constructor
  · simp [handleSubmit, hbusy]
  · simp [handleSendMessage, hbusy]

/-- Claim C2 witness: submitting Hi while a call is outstanding changes
nothing. -/
theorem spec_busy_witness :
    handleSubmit busyExampleState "Hi" (ApiOutcome.success "x") = busyExampleState ∧
    handleSendMessage busyExampleState "Hi" (ApiOutcome.success "x") = busyExampleState :=
  spec_busy busyExampleState "Hi" (ApiOutcome.success "x") rfl

/-- Claim C3: a non-blank submission whose generation call succeeds grows the
conversation by exactly two entries — a user message with the trimmed prompt,
then an assistant message with the returned text, in that order — and the busy
flag is clear after the call settles. -/
theorem spec_success (s : AppState) (p t : String)
    (hp : jsTrim p ≠ "") (hb : s.isLoading = false) :
    (handleSubmit s p (ApiOutcome.success t)).messages
      = s.messages ++ [⟨MessageRole.user, jsTrim p⟩, ⟨MessageRole.model, t⟩] ∧
    (handleSubmit s p (ApiOutcome.success t)).isLoading = false := by
  have h := handleSubmit_run s p (ApiOutcome.success t) hp hb
  exact ⟨h.1, h.2.1⟩

/-- Claim C3 witness: the scenario from the spec — submit Hello with a stub
client returning the greeting — yields exactly the user turn then the assistant
turn, with the busy flag clear. -/
theorem spec_success_witness :
    (handleSubmit initialAppState "Hello" (ApiOutcome.success "Hi there!")).messages
      = initialAppState.messages ++ [⟨MessageRole.user, jsTrim "Hello"⟩,
          ⟨MessageRole.model, "Hi there!"⟩] ∧
    (handleSubmit initialAppState "Hello" (ApiOutcome.success "Hi there!")).isLoading = false :=
  spec_success initialAppState "Hello" "Hi there!" (by decide) rfl

/-- Helper: a string beginning with a given head is distinct from another string
whenever their first few characters already differ. -/
theorem append_ne_of_take_ne (a m b : String) (k : Nat)
    (hk : k ≤ a.data.length) (h : a.data.take k ≠ b.data.take k) :
    a ++ m ≠ b := by
  intro he
  apply h
  have hd : a.data ++ m.data = b.data := by
    rw [← String.data_append]
    exact congrArg String.data he
  calc a.data.take k = (a.data ++ m.data).take k :=
        (List.take_append_of_le_length hk).symm
    _ = b.data.take k := by rw [hd]

/-- Helper: the credential-failure text differs from every communication-failure
text. -/
theorem keyNotValid_ne_comm (m : String) : keyNotValidText ≠ commErrorText m := by
  have h := append_ne_of_take_ne commErrorHead m keyNotValidText 1 (by decide) (by decide)
  exact fun he => h he.symm

/-- Helper: every communication-failure text differs from the unknown-failure
text. -/
theorem comm_ne_unknown (m : String) : commErrorText m ≠ unknownErrorText :=
  append_ne_of_take_ne commErrorHead m unknownErrorText 4 (by decide) (by decide)

/-- Claim C4: a submission whose generation call fails still grows the
conversation by exactly two entries, user then assistant, the assistant entry
carrying the text mapped from the failure category; the three category texts
(invalid credential, communication failure, unknown failure) are pairwise
distinct. -/
theorem spec_failure (s : AppState) (p m : String) (o : ApiOutcome)
    (hp : jsTrim p ≠ "") (hb : s.isLoading = false) (hf : o.isFailure = true) :
    (handleSubmit s p o).messages
      = s.messages ++ [⟨MessageRole.user, jsTrim p⟩,
          ⟨MessageRole.model, generateContent s.systemInstruction (jsTrim p) o⟩] ∧
    (includesSubstr m "API key not valid" = true →
      generateContent s.systemInstruction (jsTrim p) (ApiOutcome.errorWith m) = keyNotValidText) ∧
    (includesSubstr m "API key not valid" = false →
      generateContent s.systemInstruction (jsTrim p) (ApiOutcome.errorWith m) = commErrorText m) ∧
    generateContent s.systemInstruction (jsTrim p) ApiOutcome.nonError = unknownErrorText ∧
    keyNotValidText ≠ commErrorText m ∧
    keyNotValidText ≠ unknownErrorText ∧
    commErrorText m ≠ unknownErrorText := by
  refine ⟨(handleSubmit_run s p o hp hb).1, ?_, ?_, rfl, keyNotValid_ne_comm m, by decide,
    comm_ne_unknown m⟩
  · intro h; simp [generateContent, h]
  · intro h; simp [generateContent, h]

/-- Claim C4 witness: a failing call of the unknown category appends the mapped
text, and the three category texts are distinct at a concrete message. -/
theorem spec_failure_witness :
    (handleSubmit initialAppState "X" ApiOutcome.nonError).messages
      = initialAppState.messages ++ [⟨MessageRole.user, jsTrim "X"⟩,
          ⟨MessageRole.model,
            generateContent initialAppState.systemInstruction (jsTrim "X") ApiOutcome.nonError⟩] ∧
    (includesSubstr "API key not valid." "API key not valid" = true →
      generateContent initialAppState.systemInstruction (jsTrim "X")
        (ApiOutcome.errorWith "API key not valid.") = keyNotValidText) ∧
    (includesSubstr "API key not valid." "API key not valid" = false →
      generateContent initialAppState.systemInstruction (jsTrim "X")
        (ApiOutcome.errorWith "API key not valid.") = commErrorText "API key not valid.") ∧
    generateContent initialAppState.systemInstruction (jsTrim "X") ApiOutcome.nonError
      = unknownErrorText ∧
    keyNotValidText ≠ commErrorText "API key not valid." ∧
    keyNotValidText ≠ unknownErrorText ∧
    commErrorText "API key not valid." ≠ unknownErrorText :=
  spec_failure initialAppState "X" "API key not valid." ApiOutcome.nonError
    (by decide) rfl rfl

/-- Claim C5: the busy flag is true immediately after dispatch and is cleared
whenever the call settles — for every settle outcome: resolution, rejection with
an Error, or rejection with a non-Error value — so it is cleared unconditionally
at settle. -/
theorem spec_busy_between (s sMid : AppState) (p : String) (r : CallResult) :
    (dispatch s p).isLoading = true ∧ (settle sMid r).isLoading = false := by
  simp [dispatch, settle]

/-- Claim C6: saving a persona replaces the system instruction with the new
string unconditionally (any string, including the empty one) and clears the
conversation, for every prior conversation of any length. -/
theorem spec_save (s : AppState) (newInstruction : String) :
    (handleSaveSettings s newInstruction).systemInstruction = newInstruction ∧
    (handleSaveSettings s newInstruction).messages = [] ∧
    (handleSaveSettings s newInstruction).isLoading = s.isLoading ∧
    (handleSaveSettings s newInstruction).error = s.error := by
  simp [handleSaveSettings]

/-- Claim C7 counterexample: saving a persona from a pending state clears the
conversation but leaves the busy flag set, so the system has not returned to the
idle state right after the save. -/
theorem spec_save_pending_cex :
    (handleSaveSettings pendingExampleState "Be terse.").messages = [] ∧
    (handleSaveSettings pendingExampleState "Be terse.").isLoading ≠ false := by
  exact ⟨rfl, by decide⟩

/-- Claim C7 amended: a persona save clears the conversation and leaves the busy
flag unchanged, so from the idle state the system stays idle, while from a
pending state the busy flag only becomes false when the outstanding call
settles. -/
theorem spec_save_busy_unchanged (s : AppState) (i : String) (r : CallResult) :
    (handleSaveSettings s i).messages = [] ∧
    (handleSaveSettings s i).isLoading = s.isLoading ∧
    (settle (handleSaveSettings s i) r).isLoading = false := by
  simp [handleSaveSettings, settle]

/-- Claim C8: a dispatched call always appends its assistant message when it
settles, even when a persona save cleared the conversation in between — the
result then lands as the sole entry of the freshly cleared conversation, and the
busy flag clears at settle. -/
theorem spec_inflight (s : AppState) (p i : String) (r : CallResult) (o : ApiOutcome) :
    (settle (handleSaveSettings (dispatch s p) i) r).messages = [settledMessage r] ∧
    (settle (handleSaveSettings (dispatch s p) i) r).isLoading = false ∧
    (settle (handleSaveSettings (dispatch s p) i)
        (callGenerate s.systemInstruction p o)).messages
      = [⟨MessageRole.model, generateContent s.systemInstruction p o⟩] := by
  simp [settle, handleSaveSettings, dispatch, callGenerate, settledMessage]

/-- Claim C9 counterexample: a failing generation call (unknown category) appends
the assistant message but leaves the error banner unset, because
`generateContent` returns the failure as a normal string and the catch branch of
the flow never runs. -/
theorem spec_banner_cex :
    (handleSubmit initialAppState "X" ApiOutcome.nonError).messages
      = [⟨MessageRole.user, "X"⟩, ⟨MessageRole.model, unknownErrorText⟩] ∧
    (handleSubmit initialAppState "X" ApiOutcome.nonError).error = none := by
  decide

/-- Claim C9 amended: every failing generation call is converted into a
user-visible assistant message only — the transient banner stays unset — and no
failure halts future submissions: the busy flag is clear afterwards and a later
non-blank submission appends its two entries as usual. -/
theorem spec_failure_no_banner (s : AppState) (p p2 t : String) (o : ApiOutcome)
    (hp : jsTrim p ≠ "") (hb : s.isLoading = false) (hf : o.isFailure = true)
    (hp2 : jsTrim p2 ≠ "") :
    (handleSubmit s p o).messages
      = s.messages ++ [⟨MessageRole.user, jsTrim p⟩,
          ⟨MessageRole.model, generateContent s.systemInstruction (jsTrim p) o⟩] ∧
    (handleSubmit s p o).error = none ∧
    (handleSubmit s p o).isLoading = false ∧
    (handleSubmit (handleSubmit s p o) p2 (ApiOutcome.success t)).messages
      = (handleSubmit s p o).messages ++ [⟨MessageRole.user, jsTrim p2⟩,
          ⟨MessageRole.model, t⟩] := by
  obtain ⟨h1, h2, h3, h4⟩ := handleSubmit_run s p o hp hb
  exact ⟨h1, h3, h2, (handleSubmit_run (handleSubmit s p o) p2 (ApiOutcome.success t) hp2 h2).1⟩

/-- Claim C9 amended witness: a communication failure yields the assistant
message, no banner, a clear busy flag, and a subsequent submission still works. -/
theorem spec_failure_no_banner_witness :
    (handleSubmit initialAppState "X" (ApiOutcome.errorWith "network down")).messages
      = initialAppState.messages ++ [⟨MessageRole.user, jsTrim "X"⟩,
          ⟨MessageRole.model,
            generateContent initialAppState.systemInstruction (jsTrim "X")
              (ApiOutcome.errorWith "network down")⟩] ∧
    (handleSubmit initialAppState "X" (ApiOutcome.errorWith "network down")).error = none ∧
    (handleSubmit initialAppState "X" (ApiOutcome.errorWith "network down")).isLoading = false ∧
    (handleSubmit (handleSubmit initialAppState "X" (ApiOutcome.errorWith "network down"))
        "Again" (ApiOutcome.success "ok")).messages
      = (handleSubmit initialAppState "X" (ApiOutcome.errorWith "network down")).messages
          ++ [⟨MessageRole.user, jsTrim "Again"⟩, ⟨MessageRole.model, "ok"⟩] :=
  spec_failure_no_banner initialAppState "X" "Again" "ok" (ApiOutcome.errorWith "network down")
    (by decide) rfl rfl (by decide)

/-- Claim C10: `generateContent` never rejects — for every API outcome the call
resolves, and the returned string is either the success text or one of the three
mapped failure strings — so the catch branch of the submission flow never runs:
after any full submission the banner is unset and the appended assistant text is
exactly the return value of `generateContent`, never the apology text. -/
theorem spec_no_throw (s : AppState) (p : String) (o : ApiOutcome)
    (hp : p ≠ "") (hb : s.isLoading = false) :
    callGenerate s.systemInstruction p o
      = CallResult.resolved (generateContent s.systemInstruction p o) ∧
    ((∃ t, o = ApiOutcome.success t ∧ generateContent s.systemInstruction p o = t) ∨
      generateContent s.systemInstruction p o = keyNotValidText ∨
      (∃ m, generateContent s.systemInstruction p o = commErrorText m) ∨
      generateContent s.systemInstruction p o = unknownErrorText) ∧
    (handleSendMessage s p o).error = none ∧
    (handleSendMessage s p o).messages
      = s.messages ++ [⟨MessageRole.user, p⟩,
          ⟨MessageRole.model, generateContent s.systemInstruction p o⟩] := by
  refine ⟨rfl, ?_, ?_, ?_⟩
  · cases o with
    | success t => exact Or.inl ⟨t, rfl, rfl⟩
    | errorWith m =>
        by_cases h : includesSubstr m "API key not valid" = true
        · exact Or.inr (Or.inl (by simp [generateContent, h]))
        · exact Or.inr (Or.inr (Or.inl ⟨m, by simp [generateContent, h]⟩))
    | nonError => exact Or.inr (Or.inr (Or.inr rfl))
  · simp [handleSendMessage, hp, hb, dispatch, settle, callGenerate, settledError]
  · simp [handleSendMessage, hp, hb, dispatch, settle, callGenerate, settledMessage]

/-- Claim C10 witness: with a rejecting API call the wrapped client still
resolves, the result is a mapped failure string, and the flow ends with no banner
and the two appended messages. -/
theorem spec_no_throw_witness :
    callGenerate initialAppState.systemInstruction "Hello" (ApiOutcome.errorWith "network down")
      = CallResult.resolved (generateContent initialAppState.systemInstruction "Hello"
          (ApiOutcome.errorWith "network down")) ∧
    ((∃ t, ApiOutcome.errorWith "network down" = ApiOutcome.success t ∧
        generateContent initialAppState.systemInstruction "Hello"
          (ApiOutcome.errorWith "network down") = t) ∨
      generateContent initialAppState.systemInstruction "Hello"
          (ApiOutcome.errorWith "network down") = keyNotValidText ∨
      (∃ m, generateContent initialAppState.systemInstruction "Hello"
          (ApiOutcome.errorWith "network down") = commErrorText m) ∨
      generateContent initialAppState.systemInstruction "Hello"
          (ApiOutcome.errorWith "network down") = unknownErrorText) ∧
    (handleSendMessage initialAppState "Hello" (ApiOutcome.errorWith "network down")).error
      = none ∧
    (handleSendMessage initialAppState "Hello" (ApiOutcome.errorWith "network down")).messages
      = initialAppState.messages ++ [⟨MessageRole.user, "Hello"⟩,
          ⟨MessageRole.model, generateContent initialAppState.systemInstruction "Hello"
            (ApiOutcome.errorWith "network down")⟩] :=
  spec_no_throw initialAppState "Hello" (ApiOutcome.errorWith "network down") (by decide) rfl

end BotContentAssistant
